import Mathlib

/-!
Verification development for `plugins/techdocs-react/src/context.tsx`:
a shallow embedding of the TechDocs reader-page context provider and its
consumer hook, together with theorems about the published claims.

External collaborators of the file (the catalog-model `stringifyEntityRef`,
the `react-use` async-state primitive, the version-bridge context mechanism
and React's rendering model) are not part of the source tree; they are
modelled from the specification's description of their contracts, and each
such definition says so in its doc comment.
-/

/-- Modelled from the spec: an opaque JavaScript error value, as captured by a
rejected fetch (`error-with-value` load-state). Only its identity matters. -/
structure JsError where
  message : String
  deriving Repr, DecidableEq

/-- Modelled from the spec: an opaque shadow DOM root reference, held as
mutable local view state by the provider. -/
structure ShadowRoot where
  rootId : Nat
  deriving Repr, DecidableEq

/-- Modelled from the spec: the opaque payload of `getTechDocsMetadata`
(`TechDocsMetadata` from `./types`, not under the source tree). -/
structure TechDocsMetadata where
  payload : Nat
  deriving Repr, DecidableEq

/-- Modelled from the spec: the opaque payload of `getEntityMetadata`
(`TechDocsEntityMetadata` from `./types`, not under the source tree). -/
structure TechDocsEntityMetadata where
  payload : Nat
  deriving Repr, DecidableEq

/-- Modelled from the spec: the `AsyncState` of `react-use`, a tri-state
wrapper over an asynchronous value — pending (`loading`), resolved
(`value`), failed (`error`). -/
structure AsyncState (α : Type) where
  loading : Bool
  value : Option α
  error : Option JsError
  deriving Repr, DecidableEq

/-- Modelled from the spec: the pending load-state a freshly issued fetch is
tracked as. -/
def pendingState {α : Type} : AsyncState α :=
  { loading := true, value := none, error := none }

/-- `CompoundEntityRef` from the catalog model: compound identifier
(kind, name, namespace) for a catalog entity, with string fields as the
TypeScript type declares. `namespace` is a Lean keyword, hence the trailing
underscore. -/
structure CompoundEntityRef where
  kind : String
  name : String
  namespace_ : String
  deriving Repr, DecidableEq

/-- The runtime shape of an entity reference derived from route parameters:
each of `kind`, `name`, `namespace` may be `undefined` (here `none`) when the
corresponding route parameter is absent. -/
structure EntityRefOpt where
  kind : Option String
  name : Option String
  namespace_ : Option String
  deriving Repr, DecidableEq

/-- Modelled from the spec: `stringifyEntityRef` of the external
catalog-model package. The spec only requires a canonical string form of
kind, namespace and name under which entity references are compared. -/
def stringifyEntityRef (r : CompoundEntityRef) : String :=
  r.kind ++ ":" ++ r.namespace_ ++ "/" ++ r.name

/-- `areEntityRefsEqual` from the source: two entity references are equal
when their stringified forms are equal strings. -/
def areEntityRefsEqual (prevEntityRef nextEntityRef : CompoundEntityRef) : Bool :=
  decide (stringifyEntityRef prevEntityRef = stringifyEntityRef nextEntityRef)

/-- `arePathsEqual` from the source: strict equality of the two optional
path strings (`undefined` is modelled as `none`). -/
def arePathsEqual (prevPath nextPath : Option String) : Bool :=
  decide (prevPath = nextPath)

/-- The effect a setter dispatches to the provider's state cells. The
source's setters are `Dispatch<SetStateAction<...>>`; calling one produces a
state-update effect, modelled here as an explicit effect value, and the
no-op setters of the default value produce no effects at all. -/
inductive Effect where
  | setTitle (t : String)
  | setSubtitle (t : String)
  | setShadowRoot (r : Option ShadowRoot)
  deriving Repr, DecidableEq

/-- `TechDocsReaderPageValue` from the source: the full exposed state bag.
Setter fields are modelled as functions from the argument to the list of
state-update effects that the call dispatches. -/
structure TechDocsReaderPageValue where
  metadata : AsyncState TechDocsMetadata
  path : String
  entityRef : CompoundEntityRef
  entityMetadata : AsyncState TechDocsEntityMetadata
  shadowRoot : Option ShadowRoot
  setShadowRoot : Option ShadowRoot → List Effect
  title : String
  setTitle : String → List Effect
  subtitle : String
  setSubtitle : String → List Effect

/-- `defaultTechDocsReaderPageValue` from the source: empty strings, empty
entity reference, both load-states pending, no shadow root, and no-op
setters (`() => {}`, i.e. they dispatch no effect). -/
def defaultTechDocsReaderPageValue : TechDocsReaderPageValue :=
  { path := ""
  , title := ""
  , subtitle := ""
  , setTitle := fun _ => []
  , setSubtitle := fun _ => []
  , setShadowRoot := fun _ => []
  , metadata := { loading := true, value := none, error := none }
  , entityMetadata := { loading := true, value := none, error := none }
  , entityRef := { kind := "", name := "", namespace_ := "" }
  , shadowRoot := none }

/-- Modelled from the spec: a versioned context value of the version-bridge
package — "a registry mapping integer schema version to value, with explicit
presence checks". `atVersion` is application. -/
def VersionedValue : Type :=
  Nat → Option TechDocsReaderPageValue

/-- Modelled from the spec: `createVersionedValueMap({1: value})` as used by
the provider — the registry holding exactly schema version 1. -/
def createVersionedValueMap1 (value : TechDocsReaderPageValue) : VersionedValue :=
  fun n => if n = 1 then some value else none

/-- `useTechDocsReaderPage` from the source. The `useContext` lookup is the
`Option VersionedValue` argument (`none` when no ancestor provider is
present). A thrown error is modelled as `Except.error` with the thrown
message. -/
def useTechDocsReaderPage (versionedContext : Option VersionedValue) :
    Except String TechDocsReaderPageValue :=
  match versionedContext with
  | none => Except.ok defaultTechDocsReaderPageValue
  | some versioned =>
    match versioned 1 with
    | none => Except.error "No context found for version 1."
    | some context => Except.ok context

/-- The route parameters consumed via `useParams()`: `namespace`, `kind`,
`name` and the catch-all trailing-path parameter `params['*']`
(`catchAll`). Each is `none` when the route did not capture it. -/
structure RouteParams where
  namespace_ : Option String
  kind : Option String
  name : Option String
  catchAll : Option String
  deriving Repr, DecidableEq

/-- `TechDocsReaderPageState` from the source:
`Partial<Pick<Props, 'path' | 'entityRef'>>` — the caller-supplied initial
state of `useTechDocsReaderPageState`, in which each key may be absent
(`none`). -/
structure TechDocsReaderPageState where
  path : Option String
  entityRef : Option EntityRefOpt
  deriving Repr, DecidableEq

/-- The runtime shape of what `useTechDocsReaderPageState` returns (its
declared TypeScript type is `Required<TechDocsReaderPageState>`, but the
entity-reference fields can still be `undefined` at runtime). -/
structure ReaderPageStateOut where
  path : String
  entityRef : EntityRefOpt
  deriving Repr, DecidableEq

/-- `useTechDocsReaderPageState` from the source: destructures
`{ namespace, kind, name, '*': path = '' }` from the route parameters,
builds the default state `{ path, entityRef: { namespace, kind, name } }`,
and merges `{ ...defaultState, ...initialState }` — an object spread in
which a key of `initialState` overrides the default exactly when it is
present. -/
def useTechDocsReaderPageState (initialState : TechDocsReaderPageState)
    (params : RouteParams) : ReaderPageStateOut :=
  let defaultPath : String := params.catchAll.getD ""
  let defaultEntityRef : EntityRefOpt :=
    { namespace_ := params.namespace_, kind := params.kind, name := params.name }
  { path :=
      match initialState.path with
      | some p => p
      | none => defaultPath
  , entityRef :=
      match initialState.entityRef with
      | some r => r
      | none => defaultEntityRef }

/-- An entity-reference prop as a JavaScript object: `oid` is the object's
identity (two props are `Object.is`-equal exactly when their `oid`s agree),
`ref` its field content. `useAsync`'s dependency comparison sees the
identity; the memo comparator sees the stringified content. -/
structure EntityRefObj where
  oid : Nat
  ref : CompoundEntityRef
  deriving Repr, DecidableEq

/-- `TechDocsReaderPageProviderProps` (without `children`): the optional
`path` and the required `entityRef`. -/
structure TechDocsReaderPageProviderProps where
  path : Option String
  entityRef : EntityRefObj
  deriving Repr, DecidableEq

/-- The memo equality check of `TechDocsReaderPageProvider` (its second
argument to `memo`): consecutive prop sets are considered equal when the
entity references stringify identically and the paths are strictly
equal. -/
def arePropsEqual (prevProps nextProps : TechDocsReaderPageProviderProps) : Bool :=
  areEntityRefsEqual prevProps.entityRef.ref nextProps.entityRef.ref &&
    arePathsEqual prevProps.path nextProps.path

/-- The per-mount state of one `TechDocsReaderPageProvider` instance: the
last rendered props and route params, the dependency (object identity) each
`useAsync` call site last ran with, how many fetches each call site has
issued, the two load-states, and the three `useState` cells. -/
structure ProviderState where
  props : TechDocsReaderPageProviderProps
  params : RouteParams
  metadataDep : Nat
  entityMetadataDep : Nat
  metadataFetches : Nat
  entityMetadataFetches : Nat
  metadata : AsyncState TechDocsMetadata
  entityMetadata : AsyncState TechDocsEntityMetadata
  title : String
  subtitle : String
  shadowRoot : Option ShadowRoot
  deriving Repr, DecidableEq

/-- One render of the provider body with props `p` (modelled from the spec
as far as React is concerned: `useAsync` re-issues its fetch exactly when
its dependency list `[entityRef]` changes under `Object.is`, i.e. when the
object identity of the entity reference changed; the `useState` cells
survive the render). -/
def renderWith (s : ProviderState) (p : TechDocsReaderPageProviderProps) : ProviderState :=
  let sameMetadataDep := p.entityRef.oid = s.metadataDep
  let sameEntityMetadataDep := p.entityRef.oid = s.entityMetadataDep
  { props := p
  , params := s.params
  , metadataDep := p.entityRef.oid
  , entityMetadataDep := p.entityRef.oid
  , metadataFetches := if sameMetadataDep then s.metadataFetches else s.metadataFetches + 1
  , entityMetadataFetches :=
      if sameEntityMetadataDep then s.entityMetadataFetches else s.entityMetadataFetches + 1
  , metadata := if sameMetadataDep then s.metadata else pendingState
  , entityMetadata := if sameEntityMetadataDep then s.entityMetadata else pendingState
  , title := s.title
  , subtitle := s.subtitle
  , shadowRoot := s.shadowRoot }

/-- Mounting the provider with props `p` under route params `q`: the
`useState` cells start from the fields of `defaultTechDocsReaderPageValue`,
and both `useAsync` call sites issue their first fetch. -/
def mount (p : TechDocsReaderPageProviderProps) (q : RouteParams) : ProviderState :=
  { props := p
  , params := q
  , metadataDep := p.entityRef.oid
  , entityMetadataDep := p.entityRef.oid
  , metadataFetches := 1
  , entityMetadataFetches := 1
  , metadata := pendingState
  , entityMetadata := pendingState
  , title := defaultTechDocsReaderPageValue.title
  , subtitle := defaultTechDocsReaderPageValue.subtitle
  , shadowRoot := defaultTechDocsReaderPageValue.shadowRoot }

/-- Applying one setter-dispatched effect to the provider's `useState`
cells. -/
def applyEffect (s : ProviderState) : Effect → ProviderState
  | Effect.setTitle t => { s with title := t }
  | Effect.setSubtitle t => { s with subtitle := t }
  | Effect.setShadowRoot r => { s with shadowRoot := r }

/-- The events a mounted provider instance reacts to: a parent re-render
with new props (guarded by the memo equality check), settlement of either
fetch, and a state-update effect dispatched by one of the exposed setters
(which re-renders the body with unchanged props — React's memo does not
guard state-driven re-renders). -/
inductive ProviderEvent where
  | rerenderWith (p : TechDocsReaderPageProviderProps)
  | metadataResolved (m : TechDocsMetadata)
  | metadataRejected (e : JsError)
  | entityMetadataResolved (m : TechDocsEntityMetadata)
  | entityMetadataRejected (e : JsError)
  | dispatch (eff : Effect)

/-- The provider's step function. Fetch settlement follows the spec's
load-state contract: resolution stores the value with `loading` false,
rejection stores the error with `loading` false, each touching only its own
load-state and never throwing. -/
def step (s : ProviderState) : ProviderEvent → ProviderState
  | ProviderEvent.rerenderWith p => if arePropsEqual s.props p then s else renderWith s p
  | ProviderEvent.metadataResolved m =>
      { s with metadata := { loading := false, value := some m, error := none } }
  | ProviderEvent.metadataRejected e =>
      { s with metadata := { loading := false, value := none, error := some e } }
  | ProviderEvent.entityMetadataResolved m =>
      { s with entityMetadata := { loading := false, value := some m, error := none } }
  | ProviderEvent.entityMetadataRejected e =>
      { s with entityMetadata := { loading := false, value := none, error := some e } }
  | ProviderEvent.dispatch eff => renderWith (applyEffect s eff) s.props

/-- Dispatching the effects a setter call produced, in order. -/
def dispatchAll (s : ProviderState) (effects : List Effect) : ProviderState :=
  effects.foldl (fun a e => step a (ProviderEvent.dispatch e)) s

/-- The context value the provider builds on a render, from its props, route
params, load-states and state cells. The `path` field resolves exactly as
the source does: the `path` prop if present, else the verbatim catch-all
route capture, else the empty string (`'*': path = ''` followed by
`const { path = '' } = ...`); `entityRef` is the required prop, which the
state merge always lets override the route-derived one. -/
def exposedValue (s : ProviderState) : TechDocsReaderPageValue :=
  { metadata := s.metadata
  , path := s.props.path.getD (s.params.catchAll.getD "")
  , entityRef := s.props.entityRef.ref
  , entityMetadata := s.entityMetadata
  , shadowRoot := s.shadowRoot
  , setShadowRoot := fun r => [Effect.setShadowRoot r]
  , title := s.title
  , setTitle := fun t => [Effect.setTitle t]
  , subtitle := s.subtitle
  , setSubtitle := fun t => [Effect.setSubtitle t] }

/-- The versioned value the provider publishes into the context:
`createVersionedValueMap({ 1: value })`. -/
def publishedValue (s : ProviderState) : VersionedValue :=
  createVersionedValueMap1 (exposedValue s)

/-- A sample entity reference used as concrete input by the witnesses. -/
def sampleRef : CompoundEntityRef :=
  { kind := "Component", name := "foo", namespace_ := "default" }

/-- Sample provider props: path `"a"`, entity reference object 0. -/
def sampleProps : TechDocsReaderPageProviderProps :=
  { path := some "a", entityRef := { oid := 0, ref := sampleRef } }

/-- Sample next provider props: a different path `"b"` and a fresh entity
reference object (object 1) whose content stringifies identically to
`sampleProps`'. -/
def samplePropsNewPath : TechDocsReaderPageProviderProps :=
  { path := some "b", entityRef := { oid := 1, ref := sampleRef } }

/-- Sample route params with a catch-all capture and no entity params. -/
def sampleParams : RouteParams :=
  { namespace_ := none, kind := none, name := none, catchAll := some "overview" }

/-- Claim C2: calling the consumer hook with no ancestor provider does not
throw and returns exactly the documented default value: path, title and
subtitle are the empty string, the entity reference is the empty reference,
and both load-states are pending. -/
theorem useTechDocsReaderPage_no_provider_default :
    useTechDocsReaderPage none = Except.ok defaultTechDocsReaderPageValue ∧
      defaultTechDocsReaderPageValue.path = "" ∧
      defaultTechDocsReaderPageValue.title = "" ∧
      defaultTechDocsReaderPageValue.subtitle = "" ∧
      defaultTechDocsReaderPageValue.entityRef =
        { kind := "", name := "", namespace_ := "" } ∧
      defaultTechDocsReaderPageValue.metadata.loading = true ∧
      defaultTechDocsReaderPageValue.entityMetadata.loading = true :=
  ⟨rfl, rfl, rfl, rfl, rfl, rfl, rfl⟩

/-- Claim C4: when an ancestor provider is present but its versioned value
does not contain schema version 1, the consumer hook throws synchronously
(modelled as `Except.error` with the thrown message) instead of returning a
value or the default. -/
theorem useTechDocsReaderPage_version_mismatch_throws (versioned : VersionedValue)
    (h : versioned 1 = none) :
    useTechDocsReaderPage (some versioned) =
      Except.error "No context found for version 1." := by
  simp only [useTechDocsReaderPage, h]

/-- Witness for claim C4 at the concrete registry holding no version. -/
theorem useTechDocsReaderPage_version_mismatch_throws_witness :
    useTechDocsReaderPage (some (fun _ => none)) =
      Except.error "No context found for version 1." :=
  useTechDocsReaderPage_version_mismatch_throws (fun _ => none) rfl

/-- Claim C9: the provider publishes its value at exactly schema version 1
and at no other version, so the consumer hook applied to a provider's
published value always succeeds and its version-mismatch throw branch is
unreachable. -/
theorem provider_publishes_exactly_version1 (s : ProviderState) (n : Nat) (h : n ≠ 1) :
    publishedValue s 1 = some (exposedValue s) ∧
      publishedValue s n = none ∧
      useTechDocsReaderPage (some (publishedValue s)) = Except.ok (exposedValue s) := by
  refine ⟨rfl, ?_, rfl⟩
  unfold publishedValue createVersionedValueMap1
  simp [h]

/-- Witness for claim C9: a freshly mounted provider's published value at
versions 1 and 2, and the hook succeeding on it. -/
theorem provider_publishes_exactly_version1_witness :
    publishedValue (mount sampleProps sampleParams) 2 = none ∧
      useTechDocsReaderPage (some (publishedValue (mount sampleProps sampleParams))) =
        Except.ok (exposedValue (mount sampleProps sampleParams)) :=
  ⟨(provider_publishes_exactly_version1 (mount sampleProps sampleParams) 2 (by decide)).2.1,
    (provider_publishes_exactly_version1 (mount sampleProps sampleParams) 2 (by decide)).2.2⟩

/-- Claim C3: the state exposed by `useTechDocsReaderPageState` merges the
route-derived defaults with the caller-supplied overrides, the latter taking
precedence: the entity reference is the supplied one when present and
otherwise the route-derived `{namespace, kind, name}`; the path is the
supplied one when present, otherwise the verbatim catch-all capture,
otherwise the empty string. -/
theorem merged_state_overrides (initialState : TechDocsReaderPageState)
    (params : RouteParams) :
    (∀ r, initialState.entityRef = some r →
        (useTechDocsReaderPageState initialState params).entityRef = r) ∧
      (initialState.entityRef = none →
        (useTechDocsReaderPageState initialState params).entityRef =
          { namespace_ := params.namespace_, kind := params.kind, name := params.name }) ∧
      (∀ p, initialState.path = some p →
        (useTechDocsReaderPageState initialState params).path = p) ∧
      (∀ c, initialState.path = none → params.catchAll = some c →
        (useTechDocsReaderPageState initialState params).path = c) ∧
      (initialState.path = none → params.catchAll = none →
        (useTechDocsReaderPageState initialState params).path = "") := by
  unfold useTechDocsReaderPageState
  refine ⟨?_, ?_, ?_, ?_, ?_⟩ <;> intros <;> simp_all

/-- Witness for claim C3: no overrides and a route capture `"overview"`
yield path `"overview"`; a supplied entity reference wins over the route. -/
theorem merged_state_overrides_witness :
    (useTechDocsReaderPageState { path := none, entityRef := none } sampleParams).path =
        "overview" ∧
      (useTechDocsReaderPageState
          { path := some "custom",
            entityRef := some { kind := some "Component", name := some "foo",
                                namespace_ := some "default" } }
          sampleParams).entityRef =
        { kind := some "Component", name := some "foo", namespace_ := some "default" } :=
  ⟨(merged_state_overrides { path := none, entityRef := none } sampleParams).2.2.2.1
      "overview" rfl rfl,
    (merged_state_overrides
        { path := some "custom",
          entityRef := some { kind := some "Component", name := some "foo",
                              namespace_ := some "default" } }
        sampleParams).1 _ rfl⟩

/-- Claim C10: with no caller-supplied entity reference and absent
`namespace`, `kind` and `name` route parameters, the exposed entity
reference has `undefined` (`none`) in every field — no validation or
defaulting to strings happens, despite the declared
`Required<...>` return type. -/
theorem route_derived_entityRef_can_be_undefined (initialState : TechDocsReaderPageState)
    (params : RouteParams) (h : initialState.entityRef = none)
    (hn : params.namespace_ = none) (hk : params.kind = none) (hm : params.name = none) :
    (useTechDocsReaderPageState initialState params).entityRef =
      { namespace_ := none, kind := none, name := none } := by
  unfold useTechDocsReaderPageState
  simp [h, hn, hk, hm]

/-- Witness for claim C10 at a fully empty initial state and param set. -/
theorem route_derived_entityRef_can_be_undefined_witness :
    (useTechDocsReaderPageState { path := none, entityRef := none }
        { namespace_ := none, kind := none, name := none, catchAll := none }).entityRef =
      { namespace_ := none, kind := none, name := none } :=
  route_derived_entityRef_can_be_undefined { path := none, entityRef := none }
    { namespace_ := none, kind := none, name := none, catchAll := none } rfl rfl rfl rfl

/-- Claim C5: a rejection of the `getTechDocsMetadata` fetch leaves the
metadata load-state with the error set, no value and `loading` false, while
the `entityMetadata` load-state is unaffected; the step function is total,
so no exception propagates. -/
theorem metadata_rejection_isolated (s : ProviderState) (e : JsError) :
    (step s (ProviderEvent.metadataRejected e)).metadata =
        { loading := false, value := none, error := some e } ∧
      (step s (ProviderEvent.metadataRejected e)).metadata.error = some e ∧
      (step s (ProviderEvent.metadataRejected e)).metadata.loading = false ∧
      (step s (ProviderEvent.metadataRejected e)).entityMetadata = s.entityMetadata :=
  ⟨rfl, rfl, rfl, rfl⟩

/-- Claim C8: the setters of the no-provider default value dispatch no
effect at all (they are `() => {}`), so calling them changes no provider
state. -/
theorem default_setters_are_noops (t : String) (r : Option ShadowRoot) (s : ProviderState) :
    defaultTechDocsReaderPageValue.setTitle t = [] ∧
      defaultTechDocsReaderPageValue.setSubtitle t = [] ∧
      defaultTechDocsReaderPageValue.setShadowRoot r = [] ∧
      dispatchAll s (defaultTechDocsReaderPageValue.setTitle t) = s ∧
      dispatchAll s (defaultTechDocsReaderPageValue.setSubtitle t) = s ∧
      dispatchAll s (defaultTechDocsReaderPageValue.setShadowRoot r) = s :=
  ⟨rfl, rfl, rfl, rfl, rfl, rfl⟩

/-- Claim C6: calling the exposed `setTitle` with `t` makes subsequent reads
of the context value (after the state-driven re-render) carry title `t`,
and every other field of the exposed value — path, entityRef, metadata,
entityMetadata, subtitle, shadowRoot — is unchanged by that call. The two
hypotheses say the `useAsync` dependencies agree with the last rendered
props, which holds in every reachable provider state. -/
theorem setTitle_updates_only_title (s : ProviderState) (t : String)
    (hm : s.metadataDep = s.props.entityRef.oid)
    (he : s.entityMetadataDep = s.props.entityRef.oid) :
    (exposedValue (dispatchAll s ((exposedValue s).setTitle t))).title = t ∧
      (exposedValue (dispatchAll s ((exposedValue s).setTitle t))).path =
        (exposedValue s).path ∧
      (exposedValue (dispatchAll s ((exposedValue s).setTitle t))).entityRef =
        (exposedValue s).entityRef ∧
      (exposedValue (dispatchAll s ((exposedValue s).setTitle t))).metadata =
        (exposedValue s).metadata ∧
      (exposedValue (dispatchAll s ((exposedValue s).setTitle t))).entityMetadata =
        (exposedValue s).entityMetadata ∧
      (exposedValue (dispatchAll s ((exposedValue s).setTitle t))).subtitle =
        (exposedValue s).subtitle ∧
      (exposedValue (dispatchAll s ((exposedValue s).setTitle t))).shadowRoot =
        (exposedValue s).shadowRoot := by
  simp only [exposedValue, dispatchAll, List.foldl, step, applyEffect, renderWith]
  simp [hm, he]

/-- Witness for claim C6 on a freshly mounted provider. -/
theorem setTitle_updates_only_title_witness :
    (exposedValue
        (dispatchAll (mount sampleProps sampleParams)
          ((exposedValue (mount sampleProps sampleParams)).setTitle "My Docs"))).title =
      "My Docs" :=
  (setTitle_updates_only_title (mount sampleProps sampleParams) "My Docs" rfl rfl).1

/-- Claim C7: re-rendering the provider with a changed path prop while the
entity reference stringifies identically (or not) is never skipped by the
memo equality check, and the exposed value's path reflects the new path
prop. -/
theorem path_change_not_skipped (s : ProviderState) (p : TechDocsReaderPageProviderProps)
    (np : String) (hp : p.path = some np) (hne : s.props.path ≠ p.path) :
    arePropsEqual s.props p = false ∧
      (exposedValue (step s (ProviderEvent.rerenderWith p))).path = np := by
  have hpaths : arePathsEqual s.props.path p.path = false := by
    simp [arePathsEqual, hne]
  have hprops : arePropsEqual s.props p = false := by
    simp [arePropsEqual, hpaths]
  refine ⟨hprops, ?_⟩
  simp [step, hprops, renderWith, exposedValue, hp]

/-- Witness for claim C7: path prop changed from `"a"` to `"b"` with the
same entity-reference content. -/
theorem path_change_not_skipped_witness :
    arePropsEqual (mount sampleProps sampleParams).props samplePropsNewPath = false ∧
      (exposedValue
          (step (mount sampleProps sampleParams)
            (ProviderEvent.rerenderWith samplePropsNewPath))).path = "b" :=
  path_change_not_skipped (mount sampleProps sampleParams) samplePropsNewPath "b" rfl
    (by decide)

/-- Claim C1 counterexample: two consecutive prop sets whose entity
references stringify identically but whose paths differ. The re-render is
not skipped (the paths differ), and because the new entity reference is a
fresh object (`useAsync` compares its dependency by object identity, not by
stringified value), both fetches are re-issued: the claim that no new
metadata fetches are triggered for every stringify-identical pair —
including pairs whose path props differ — is false. -/
theorem stringify_equal_pair_still_refetches :
    stringifyEntityRef sampleProps.entityRef.ref =
        stringifyEntityRef samplePropsNewPath.entityRef.ref ∧
      (mount sampleProps sampleParams).metadataFetches = 1 ∧
      (mount sampleProps sampleParams).entityMetadataFetches = 1 ∧
      (step (mount sampleProps sampleParams)
          (ProviderEvent.rerenderWith samplePropsNewPath)).metadataFetches = 2 ∧
      (step (mount sampleProps sampleParams)
          (ProviderEvent.rerenderWith samplePropsNewPath)).entityMetadataFetches = 2 := by
  refine ⟨rfl, rfl, rfl, ?_, ?_⟩ <;> decide

/-- Claim C1 as amended: (1) when consecutive prop sets have
stringify-identical entity references AND equal paths, the re-render is
skipped entirely, so no new fetches are triggered; (2) both fetches are
issued once on mount; (3) when the re-render is not skipped, each fetch is
re-issued exactly when the entity-reference object identity differs from
the dependency it last ran with — identity, not stringified value, decides
re-fetching. -/
theorem memo_and_fetch_behaviour (s : ProviderState)
    (p : TechDocsReaderPageProviderProps) (q : RouteParams) :
    (stringifyEntityRef s.props.entityRef.ref = stringifyEntityRef p.entityRef.ref →
      s.props.path = p.path → step s (ProviderEvent.rerenderWith p) = s) ∧
      ((mount p q).metadataFetches = 1 ∧ (mount p q).entityMetadataFetches = 1) ∧
      (arePropsEqual s.props p = false →
        (step s (ProviderEvent.rerenderWith p)).metadataFetches =
            (if p.entityRef.oid = s.metadataDep then s.metadataFetches
              else s.metadataFetches + 1) ∧
          (step s (ProviderEvent.rerenderWith p)).entityMetadataFetches =
            (if p.entityRef.oid = s.entityMetadataDep then s.entityMetadataFetches
              else s.entityMetadataFetches + 1)) := by
  refine ⟨?_, ⟨rfl, rfl⟩, ?_⟩
  · intro hs hp
    have hprops : arePropsEqual s.props p = true := by
      simp [arePropsEqual, areEntityRefsEqual, arePathsEqual, hs, hp]
    simp [step, hprops]
  · intro hprops
    simp [step, hprops, renderWith]

/-- Witness for the amended claim C1: identical props skip the re-render on
a mounted provider, and a non-skipped re-render with a fresh
entity-reference object re-issues the metadata fetch. -/
theorem memo_and_fetch_behaviour_witness :
    step (mount sampleProps sampleParams) (ProviderEvent.rerenderWith sampleProps) =
        mount sampleProps sampleParams ∧
      (step (mount sampleProps sampleParams)
          (ProviderEvent.rerenderWith samplePropsNewPath)).metadataFetches = 2 := by
  constructor
  · exact (memo_and_fetch_behaviour (mount sampleProps sampleParams) sampleProps
      sampleParams).1 rfl rfl
  · have h := ((memo_and_fetch_behaviour (mount sampleProps sampleParams)
      samplePropsNewPath sampleParams).2.2 (by decide)).1
    rw [h]
    decide
